import Mathlib

/-!
Shallow embedding of `src/consumers/project_consumer_mk.py`: a streaming
consumer that parses JSON payloads, accumulates `(timestamp, sentiment)`
points into two parallel module-level lists and redraws a live chart after
each accepted message.

Modelling decisions:
* A raw payload is modelled by the outcome of `json.loads` on it: `none`
  when the text is not valid JSON (the `json.JSONDecodeError` branch),
  `some v` when it parses to the JSON value `v`.
* JSON numbers (Python `int` / `float`) are modelled by `ℚ`.
* `json.loads` maps JSON `null` to Python `None`, and `dict.get` returns
  `None` for a missing key, so after `.get` a null field and a missing field
  are indistinguishable; `dictGet` collapses both to `none`.
* The chart surface is modelled by the series last drawn on it; a call of
  `update_chart` either completes (the chart now shows the zipped series)
  or raises (modelled by the `renderOk` flag; the exception is then caught
  by the generic `except Exception` handler of `process_message`).
* Log statements are modelled as an event trace, one tag per `logger.*`
  call site of the translated functions.
-/

/-- A JSON value as produced by `json.loads`.  An object is its list of
key/value pairs in textual order; duplicate keys are resolved by `dictGet`
(last occurrence wins, as in Python's `json.loads`). -/
inductive JValue where
  | jnull
  | jbool (b : Bool)
  | jnum (q : ℚ)
  | jstr (s : String)
  | jarr (elems : List JValue)
  | jobj (fields : List (String × JValue))
deriving Repr

/-- Python truthiness of a value decoded from JSON: `None`, `False`, zero,
the empty string, the empty list and the empty dict are falsy. -/
def truthy : JValue → Bool
  | .jnull => false
  | .jbool b => b
  | .jnum q => decide (q ≠ 0)
  | .jstr s => decide (s ≠ "")
  | .jarr elems => !elems.isEmpty
  | .jobj fields => !fields.isEmpty

/-- Raw lookup in a decoded JSON object: the value of the last binding of
key `k`, as Python's `json.loads` keeps the last duplicate. -/
def rawGet (fields : List (String × JValue)) (k : String) : Option JValue :=
  fields.reverse.lookup k

/-- Embedding of `message_dict.get(k)`: a JSON `null` value decodes to
Python `None`, which `.get` also returns for a missing key, so both
collapse to `none`. -/
def dictGet (fields : List (String × JValue)) (k : String) : Option JValue :=
  match rawGet fields k with
  | some .jnull => none
  | o => o

/-- One tag per `logger.*` call site of the translated code. -/
inductive LogEvent where
  | debugRaw          -- logger.debug "Raw message: ..."
  | infoProcessed     -- logger.info "Processed JSON message: ..."
  | infoAppended      -- logger.info "Appended timestamp=..., sentiment=..."
  | infoChartUpdated  -- logger.info "Chart updated successfully ..."
  | errorNotDict      -- logger.error "Expected a dictionary but got: ..."
  | errorInvalidJson  -- logger.error "Invalid JSON message: ..."
  | errorProcessing   -- logger.error "Error processing message: ..."
  | debugReceived     -- logger.debug "Received message at offset ..."
  | warnInterrupted   -- logger.warning "Consumer interrupted by user."
  | errorConsuming    -- logger.error "Error while consuming messages: ..."
  | infoClosed        -- logger.info "Kafka consumer for topic ... closed."
deriving Repr, DecidableEq

/-- The tags emitted by `logger.error` call sites. -/
def isErrorLog : LogEvent → Bool
  | .errorNotDict => true
  | .errorInvalidJson => true
  | .errorProcessing => true
  | .errorConsuming => true
  | _ => false

/-- The mutable state the consumer manipulates: the two module-level
parallel lists `timestamps` and `sentiments`, the series currently drawn
on the chart surface, the number of `update_chart` invocations, and the
log trace. -/
structure ConsumerState where
  timestamps : List JValue
  sentiments : List JValue
  chart : List (JValue × JValue)
  renderCalls : Nat
  logs : List LogEvent
deriving Repr

/-- Append one log event to the trace. -/
def logEv (e : LogEvent) (s : ConsumerState) : ConsumerState :=
  { s with logs := s.logs ++ [e] }

/-- State at startup: empty lists, an empty chart created by
`plt.subplots()`, no renders, no logs. -/
def initState : ConsumerState :=
  { timestamps := [], sentiments := [], chart := [], renderCalls := 0, logs := [] }

/-- Embedding of `update_chart` when the draw succeeds: the surface is
cleared and the full zipped series is plotted, so afterwards the chart
shows exactly `timestamps.zip sentiments`. -/
def update_chart (s : ConsumerState) : ConsumerState :=
  { s with chart := s.timestamps.zip s.sentiments }

/-- Embedding of `process_message`.  `parsed` is the outcome of
`json.loads` on the payload; `renderOk` tells whether the `update_chart`
call (if reached) completes or raises.  Mirrors the source: log raw, parse
(`none` hits the `JSONDecodeError` handler), log processed, check
`isinstance(dict)`, `.get` the two fields, test
`timestamp and sentiment is not None`, append to both lists, log, invoke
`update_chart`; a raising render is caught by `except Exception` which
logs an error, so the function always returns normally. -/
def process_message (renderOk : Bool) (parsed : Option JValue) (s : ConsumerState) :
    ConsumerState :=
  let s := logEv .debugRaw s
  match parsed with
  | none => logEv .errorInvalidJson s
  | some v =>
    let s := logEv .infoProcessed s
    match v with
    | .jobj fields =>
      match dictGet fields "timestamp", dictGet fields "sentiment" with
      | some ts, some sv =>
        if truthy ts then
          let s := { s with
            timestamps := s.timestamps ++ [ts],
            sentiments := s.sentiments ++ [sv] }
          let s := logEv .infoAppended s
          let s := { s with renderCalls := s.renderCalls + 1 }
          if renderOk then
            logEv .infoChartUpdated (update_chart s)
          else
            logEv .errorProcessing s
        else
          s
      | _, _ => s
    | _ => logEv .errorNotDict s

/-- The point `process_message` appends for a payload, if any: the payload
must parse, be a JSON object, have a truthy `timestamp` and a non-null,
present `sentiment`. -/
def decodePoint (parsed : Option JValue) : Option (JValue × JValue) :=
  match parsed with
  | some (.jobj fields) =>
    match dictGet fields "timestamp", dictGet fields "sentiment" with
    | some ts, some sv => if truthy ts then some (ts, sv) else none
    | _, _ => none
  | _ => none

/-- One event of the source iteration in `main`'s `for message in
consumer` loop: a delivered message (given by its parse outcome), an
external `KeyboardInterrupt` raised while polling, or a fatal source
exception raised by the iterator. -/
inductive SourceEvent where
  | msg (parsed : Option JValue)
  | interrupt
  | fatal
deriving Repr

/-- A Python exception escaping the `for` loop of `main`. -/
inductive PyExn where
  | keyboardInterrupt
  | exception
deriving Repr, DecidableEq

/-- Embedding of the `for message in consumer:` loop inside `main`'s `try`
block: each delivered message is logged (`logger.debug` of the offset) and
handed to `process_message`, which never raises; an interrupt or a fatal
source error aborts the iteration with the corresponding exception and
later events are never consumed. -/
def runLoop (renderOk : Bool) (events : List SourceEvent) (s : ConsumerState) :
    ConsumerState × Option PyExn :=
  match events with
  | [] => (s, none)
  | .msg parsed :: rest =>
    runLoop renderOk rest (process_message renderOk parsed (logEv .debugReceived s))
  | .interrupt :: _ => (s, some .keyboardInterrupt)
  | .fatal :: _ => (s, some .exception)

/-- Embedding of `main`'s two `except` clauses: a `KeyboardInterrupt` is
caught and logged as a warning, any other `Exception` is caught and logged
as an error; neither clause re-raises, so no exception stays pending. -/
def handleExn (s : ConsumerState) : Option PyExn → ConsumerState × Option PyExn
  | some .keyboardInterrupt => (logEv .warnInterrupted s, none)
  | some .exception => (logEv .errorConsuming s, none)
  | none => (s, none)

/-- What `main` produces: the final consumer state, how many times
`consumer.close()` ran, the exception (if any) the `try` block raised, and
whether an exception propagates out of `main` to its caller. -/
structure MainResult where
  state : ConsumerState
  closeCalls : Nat
  raised : Option PyExn
  propagated : Bool
deriving Repr

/-- Embedding of `main`'s `try/except/finally`: run the loop, let the
`except` clauses handle whatever escaped it, then the `finally` block runs
exactly once on every path, calling `consumer.close()` and logging; an
exception still pending after the handlers would propagate to the caller. -/
def pymain (renderOk : Bool) (events : List SourceEvent) : MainResult :=
  let out := runLoop renderOk events initState
  let handled := handleExn out.1 out.2
  let s := logEv .infoClosed handled.1
  { state := s, closeCalls := 1, raised := out.2, propagated := handled.2.isSome }

/-! ### Per-message behaviour of `process_message` -/

/-- When the payload decodes to a point, `process_message` appends it to
both lists, invokes the renderer once, and (when the render succeeds) the
chart afterwards shows the full zipped series; a raising render leaves the
chart untouched. -/
theorem process_message_decode_some (renderOk : Bool) (parsed : Option JValue)
    (s : ConsumerState) (pt : JValue × JValue) (h : decodePoint parsed = some pt) :
    (process_message renderOk parsed s).timestamps = s.timestamps ++ [pt.1] ∧
    (process_message renderOk parsed s).sentiments = s.sentiments ++ [pt.2] ∧
    (process_message renderOk parsed s).renderCalls = s.renderCalls + 1 ∧
    (renderOk = true →
      (process_message renderOk parsed s).chart =
        (s.timestamps ++ [pt.1]).zip (s.sentiments ++ [pt.2])) ∧
    (renderOk = false → (process_message renderOk parsed s).chart = s.chart) := by
  match parsed with
  | none => simp [decodePoint] at h
  | some v =>
    cases v with
    | jobj fields =>
      simp only [decodePoint] at h
      simp only [process_message]
      cases hts : dictGet fields "timestamp" with
      | none => simp [hts] at h
      | some ts =>
        cases hsv : dictGet fields "sentiment" with
        | none => simp [hts, hsv] at h
        | some sv =>
          simp only [hts, hsv] at h ⊢
          by_cases htr : truthy ts
          · simp only [htr, if_true] at h ⊢
            cases h
            cases renderOk <;> simp [logEv, update_chart]
          · simp [htr] at h
    | jnull => simp [decodePoint] at h
    | jbool b => simp [decodePoint] at h
    | jnum q => simp [decodePoint] at h
    | jstr t => simp [decodePoint] at h
    | jarr elems => simp [decodePoint] at h

/-- When the payload does not decode, `process_message` changes neither
list, leaves the chart alone and never invokes the renderer. -/
theorem process_message_decode_none (renderOk : Bool) (parsed : Option JValue)
    (s : ConsumerState) (h : decodePoint parsed = none) :
    (process_message renderOk parsed s).timestamps = s.timestamps ∧
    (process_message renderOk parsed s).sentiments = s.sentiments ∧
    (process_message renderOk parsed s).chart = s.chart ∧
    (process_message renderOk parsed s).renderCalls = s.renderCalls := by
  match parsed with
  | none => simp [process_message, logEv]
  | some v =>
    cases v with
    | jobj fields =>
      simp only [decodePoint] at h
      simp only [process_message]
      cases hts : dictGet fields "timestamp" with
      | none => simp [hts, logEv]
      | some ts =>
        cases hsv : dictGet fields "sentiment" with
        | none => simp [hts, hsv, logEv]
        | some sv =>
          simp only [hts, hsv] at h ⊢
          by_cases htr : truthy ts
          · simp [htr] at h
          · simp [htr, logEv]
    | jnull => simp [process_message, logEv]
    | jbool b => simp [process_message, logEv]
    | jnum q => simp [process_message, logEv]
    | jstr t => simp [process_message, logEv]
    | jarr elems => simp [process_message, logEv]

/-! ### Behaviour of the loop over a run of delivered messages -/

/-- Logging does not touch the `timestamps` list. -/
theorem logEv_timestamps (e : LogEvent) (s : ConsumerState) :
    (logEv e s).timestamps = s.timestamps := rfl

/-- Logging does not touch the `sentiments` list. -/
theorem logEv_sentiments (e : LogEvent) (s : ConsumerState) :
    (logEv e s).sentiments = s.sentiments := rfl

/-- Logging does not touch the chart. -/
theorem logEv_chart (e : LogEvent) (s : ConsumerState) :
    (logEv e s).chart = s.chart := rfl

/-- Logging does not invoke the renderer. -/
theorem logEv_renderCalls (e : LogEvent) (s : ConsumerState) :
    (logEv e s).renderCalls = s.renderCalls := rfl

/-- Running the loop over delivered messages only: the iteration completes
normally, both lists grow by exactly the decoded points of the run in
order, and (when every render succeeds) the chart shows the full zipped
series whenever it did at the start. -/
theorem runLoop_msgs (renderOk : Bool) (msgs : List (Option JValue)) :
    ∀ s : ConsumerState,
      (runLoop renderOk (msgs.map SourceEvent.msg) s).2 = none ∧
      (runLoop renderOk (msgs.map SourceEvent.msg) s).1.timestamps =
        s.timestamps ++ (msgs.filterMap decodePoint).map Prod.fst ∧
      (runLoop renderOk (msgs.map SourceEvent.msg) s).1.sentiments =
        s.sentiments ++ (msgs.filterMap decodePoint).map Prod.snd ∧
      (renderOk = true → s.chart = s.timestamps.zip s.sentiments →
        (runLoop renderOk (msgs.map SourceEvent.msg) s).1.chart =
          (runLoop renderOk (msgs.map SourceEvent.msg) s).1.timestamps.zip
            (runLoop renderOk (msgs.map SourceEvent.msg) s).1.sentiments) := by
  induction msgs with
  | nil => intro s; simp [runLoop]
  | cons m rest ih =>
    intro s
    simp only [List.map_cons, runLoop]
    obtain ⟨ih1, ih2, ih3, ih4⟩ := ih (process_message renderOk m (logEv .debugReceived s))
    cases hdec : decodePoint m with
    | none =>
      obtain ⟨h1, h2, h3, _⟩ :=
        process_message_decode_none renderOk m (logEv .debugReceived s) hdec
      rw [logEv_timestamps] at h1
      rw [logEv_sentiments] at h2
      rw [logEv_chart] at h3
      refine ⟨ih1, ?_, ?_, ?_⟩
      · rw [ih2, h1, List.filterMap_cons_none hdec]
      · rw [ih3, h2, List.filterMap_cons_none hdec]
      · intro hr hc
        exact ih4 hr (by rw [h1, h2, h3]; exact hc)
    | some pt =>
      obtain ⟨h1, h2, h3, h4, _⟩ :=
        process_message_decode_some renderOk m (logEv .debugReceived s) pt hdec
      rw [logEv_timestamps] at h1 h4
      rw [logEv_sentiments] at h2 h4
      refine ⟨ih1, ?_, ?_, ?_⟩
      · rw [ih2, h1, List.filterMap_cons_some hdec]; simp
      · rw [ih3, h2, List.filterMap_cons_some hdec]; simp
      · intro hr hc
        exact ih4 hr (by rw [h4 hr, h1, h2])

/-! ### Claim theorems -/

/-- Claim C1: for every payload that parses as a JSON object with a
present, non-empty (string) timestamp and a present, non-null sentiment,
`process_message` grows both series lists by exactly one, the new last
element of each is the corresponding component of the decoded
`(timestamp, sentiment)` point, and the renderer is invoked exactly once
for that message. -/
theorem c1_valid_append (fields : List (String × JValue)) (t : String)
    (sv : JValue) (s : ConsumerState)
    (hts : dictGet fields "timestamp" = some (.jstr t)) (hne : t ≠ "")
    (hsv : dictGet fields "sentiment" = some sv) :
    (process_message true (some (.jobj fields)) s).timestamps =
      s.timestamps ++ [.jstr t] ∧
    (process_message true (some (.jobj fields)) s).sentiments =
      s.sentiments ++ [sv] ∧
    (process_message true (some (.jobj fields)) s).timestamps.length =
      s.timestamps.length + 1 ∧
    (process_message true (some (.jobj fields)) s).sentiments.length =
      s.sentiments.length + 1 ∧
    (process_message true (some (.jobj fields)) s).timestamps.getLast? =
      some (.jstr t) ∧
    (process_message true (some (.jobj fields)) s).sentiments.getLast? =
      some sv ∧
    (process_message true (some (.jobj fields)) s).renderCalls =
      s.renderCalls + 1 := by
  have hdec : decodePoint (some (.jobj fields)) = some (.jstr t, sv) := by
    simp [decodePoint, hts, hsv, truthy, hne]
  obtain ⟨h1, h2, h3, _, _⟩ :=
    process_message_decode_some true (some (.jobj fields)) s (.jstr t, sv) hdec
  refine ⟨h1, h2, ?_, ?_, ?_, ?_, h3⟩
  · rw [h1]; simp
  · rw [h2]; simp
  · rw [h1]; exact List.getLast?_concat _
  · rw [h2]; exact List.getLast?_concat _

/-- Witness for C1 at Scenario A: payload
`{"timestamp":"2025-01-29 14:35:20","sentiment":0.9}` from the empty
store yields one render invocation. -/
theorem c1_valid_append_witness :
    (process_message true (some (.jobj [("timestamp", JValue.jstr "2025-01-29 14:35:20"),
      ("sentiment", JValue.jnum (9/10))])) initState).renderCalls =
      initState.renderCalls + 1 :=
  (c1_valid_append [("timestamp", JValue.jstr "2025-01-29 14:35:20"),
    ("sentiment", JValue.jnum (9/10))] "2025-01-29 14:35:20" (JValue.jnum (9/10))
    initState rfl (by decide) rfl).2.2.2.2.2.2

/-- Claim C9: the decoder ignores unknown keys (the object may contain any
other bindings) and enforces no bound on the numeric value of `sentiment`:
any non-empty string timestamp together with any parseable number — however
large, negative or outside `[-1, 1]` — is accepted and appended as-is. -/
theorem c9_unknown_keys_any_number (fields : List (String × JValue))
    (t : String) (q : ℚ) (s : ConsumerState)
    (hts : dictGet fields "timestamp" = some (.jstr t)) (hne : t ≠ "")
    (hsv : dictGet fields "sentiment" = some (.jnum q)) :
    (process_message true (some (.jobj fields)) s).timestamps =
      s.timestamps ++ [.jstr t] ∧
    (process_message true (some (.jobj fields)) s).sentiments =
      s.sentiments ++ [.jnum q] := by
  have hdec : decodePoint (some (.jobj fields)) = some (.jstr t, .jnum q) := by
    simp [decodePoint, hts, hsv, truthy, hne]
  obtain ⟨h1, h2, _, _, _⟩ :=
    process_message_decode_some true (some (.jobj fields)) s (.jstr t, .jnum q) hdec
  exact ⟨h1, h2⟩

/-- Witness for C9: an object with extra keys `author`, `message`, `extra`
and the out-of-range sentiment `-1000000` is appended as-is. -/
theorem c9_unknown_keys_any_number_witness :
    (process_message true (some (.jobj [("author", JValue.jstr "Eve"),
      ("message", JValue.jstr "hi"), ("timestamp", JValue.jstr "t1"),
      ("sentiment", JValue.jnum (-1000000)), ("extra", JValue.jnull)]))
      initState).sentiments = initState.sentiments ++ [JValue.jnum (-1000000)] :=
  (c9_unknown_keys_any_number [("author", JValue.jstr "Eve"),
    ("message", JValue.jstr "hi"), ("timestamp", JValue.jstr "t1"),
    ("sentiment", JValue.jnum (-1000000)), ("extra", JValue.jnull)]
    "t1" (-1000000) initState rfl (by decide) rfl).2

/-- Claim C10: the two parallel series lists have equal length after every
call of `process_message`, for every payload and render outcome — each
accepted message appends to both lists, no path appends to only one. -/
theorem c10_parallel_lists_equal_length (renderOk : Bool)
    (parsed : Option JValue) (s : ConsumerState)
    (h : s.timestamps.length = s.sentiments.length) :
    (process_message renderOk parsed s).timestamps.length =
      (process_message renderOk parsed s).sentiments.length := by
  cases hdec : decodePoint parsed with
  | none =>
    obtain ⟨h1, h2, _, _⟩ := process_message_decode_none renderOk parsed s hdec
    rw [h1, h2, h]
  | some pt =>
    obtain ⟨h1, h2, _, _, _⟩ := process_message_decode_some renderOk parsed s pt hdec
    rw [h1, h2]; simp [h]

/-- Witness for C10: from the empty store, processing an unparseable
payload keeps the two lists the same length. -/
theorem c10_parallel_lists_equal_length_witness :
    (process_message true none initState).timestamps.length =
      (process_message true none initState).sentiments.length :=
  c10_parallel_lists_equal_length true none initState rfl

/-- Claim C3: for every malformed or incomplete payload — not valid JSON,
not a JSON object, missing/empty timestamp, or null/missing sentiment —
`process_message` leaves both series lists unchanged and never invokes the
renderer, and the loop goes on to the next message: the event is consumed
normally and iteration proceeds with the remaining events. -/
theorem c3_malformed_unchanged_loop_continues (renderOk : Bool)
    (parsed : Option JValue) (s : ConsumerState) (rest : List SourceEvent)
    (h : parsed = none ∨
      (∃ v, parsed = some v ∧ ∀ fields, v ≠ .jobj fields) ∨
      (∃ fields, parsed = some (.jobj fields) ∧
        (dictGet fields "timestamp" = none ∨
         dictGet fields "timestamp" = some (.jstr "") ∨
         dictGet fields "sentiment" = none))) :
    (process_message renderOk parsed s).timestamps = s.timestamps ∧
    (process_message renderOk parsed s).sentiments = s.sentiments ∧
    (process_message renderOk parsed s).renderCalls = s.renderCalls ∧
    (runLoop renderOk [SourceEvent.msg parsed] s).2 = none ∧
    runLoop renderOk (SourceEvent.msg parsed :: rest) s =
      runLoop renderOk rest
        (process_message renderOk parsed (logEv .debugReceived s)) := by
  have hdec : decodePoint parsed = none := by
    rcases h with h | ⟨v, rfl, hv⟩ | ⟨fields, rfl, hf⟩
    · rw [h]; rfl
    · cases v with
      | jobj fields => exact absurd rfl (hv fields)
      | jnull => rfl
      | jbool b => rfl
      | jnum q => rfl
      | jstr t => rfl
      | jarr elems => rfl
    · rcases hf with h1 | h1 | h1
      · simp [decodePoint, h1]
      · cases hsv : dictGet fields "sentiment" with
        | none => simp [decodePoint, h1, hsv]
        | some sv =>
          have htr : truthy (.jstr "") = false := rfl
          simp [decodePoint, h1, hsv, htr]
      · cases hts : dictGet fields "timestamp" with
        | none => simp [decodePoint, hts, h1]
        | some ts => simp [decodePoint, hts, h1]
  obtain ⟨h1, h2, _, h4⟩ := process_message_decode_none renderOk parsed s hdec
  refine ⟨h1, h2, h4, ?_, rfl⟩
  have hstep : runLoop renderOk [SourceEvent.msg parsed] s =
      runLoop renderOk []
        (process_message renderOk parsed (logEv .debugReceived s)) := rfl
  rw [hstep]; rfl

/-- Witness for C3 at Scenario B: the unparseable payload `not json`
leaves the store untouched. -/
theorem c3_malformed_unchanged_loop_continues_witness :
    (process_message true none initState).timestamps = initState.timestamps :=
  (c3_malformed_unchanged_loop_continues true none initState [] (Or.inl rfl)).1

/-- Counterexample to C7 at Scenario C: for the payload
`{"timestamp":"t1"}` (missing sentiment) the code logs no failure at all —
the complete log trace of the call is the raw-message debug line and the
processed-message info line, with zero `logger.error` entries — while the
claim demands exactly one logged validation failure; the message is
nevertheless dropped. -/
theorem c7_counterexample_no_validation_log :
    (process_message true (some (.jobj [("timestamp", JValue.jstr "t1")]))
      initState).logs = [.debugRaw, .infoProcessed] ∧
    ((process_message true (some (.jobj [("timestamp", JValue.jstr "t1")]))
      initState).logs.filter isErrorLog).length = 0 ∧
    (process_message true (some (.jobj [("timestamp", JValue.jstr "t1")]))
      initState).timestamps = [] :=
  ⟨rfl, rfl, rfl⟩

/-- Claim C7 as amended: for every payload that parses as a JSON object
but has a missing/empty timestamp or a null/missing sentiment, the message
is dropped non-fatally — both lists and the renderer are untouched — but
no validation failure is logged: the only log entries of the call are the
raw-message debug line and the processed-message info line. -/
theorem c7_validation_drop_is_silent (renderOk : Bool)
    (fields : List (String × JValue)) (s : ConsumerState)
    (h : dictGet fields "timestamp" = none ∨
         dictGet fields "timestamp" = some (.jstr "") ∨
         dictGet fields "sentiment" = none) :
    (process_message renderOk (some (.jobj fields)) s).timestamps =
      s.timestamps ∧
    (process_message renderOk (some (.jobj fields)) s).sentiments =
      s.sentiments ∧
    (process_message renderOk (some (.jobj fields)) s).renderCalls =
      s.renderCalls ∧
    (process_message renderOk (some (.jobj fields)) s).logs =
      s.logs ++ [.debugRaw, .infoProcessed] := by
  rcases h with h1 | h1 | h1
  · cases hsv : dictGet fields "sentiment" with
    | none => simp [process_message, h1, hsv, logEv]
    | some sv => simp [process_message, h1, hsv, logEv]
  · cases hsv : dictGet fields "sentiment" with
    | none => simp [process_message, h1, hsv, logEv]
    | some sv =>
      have htr : truthy (.jstr "") = false := rfl
      simp [process_message, h1, hsv, htr, logEv]
  · cases hts : dictGet fields "timestamp" with
    | none => simp [process_message, hts, h1, logEv]
    | some ts => simp [process_message, hts, h1, logEv]

/-- Witness for the amended C7 at Scenario C: `{"timestamp":"t1"}` is
dropped with only the two non-error log lines emitted. -/
theorem c7_validation_drop_is_silent_witness :
    (process_message true (some (.jobj [("timestamp", JValue.jstr "t1")]))
      initState).logs = initState.logs ++ [.debugRaw, .infoProcessed] :=
  (c7_validation_drop_is_silent true [("timestamp", JValue.jstr "t1")]
    initState (Or.inr (Or.inr rfl))).2.2.2

/-- Claim C2: after processing any run of source messages from startup,
the store (the zip of the two series lists) and the rendered chart both
equal exactly the decoded points of the messages that passed validation,
in source arrival order — never more, never fewer, never reordered; in
particular, for any two messages m₁ before m₂ that both decode, their
points appear in that same relative order in the store. -/
theorem c2_prefix_exact_and_ordered (msgs : List (Option JValue)) :
    ((runLoop true (msgs.map SourceEvent.msg) initState).1.timestamps.zip
        (runLoop true (msgs.map SourceEvent.msg) initState).1.sentiments =
      msgs.filterMap decodePoint ∧
     (runLoop true (msgs.map SourceEvent.msg) initState).1.chart =
      msgs.filterMap decodePoint) ∧
    ∀ (l₁ l₂ l₃ : List (Option JValue)) (m₁ m₂ : Option JValue)
      (p₁ p₂ : JValue × JValue),
      msgs = l₁ ++ m₁ :: l₂ ++ m₂ :: l₃ →
      decodePoint m₁ = some p₁ → decodePoint m₂ = some p₂ →
      List.Sublist [p₁, p₂]
        ((runLoop true (msgs.map SourceEvent.msg) initState).1.timestamps.zip
          (runLoop true (msgs.map SourceEvent.msg) initState).1.sentiments) := by
  obtain ⟨_, h2, h3, h4⟩ := runLoop_msgs true msgs initState
  have hzip : (runLoop true (msgs.map SourceEvent.msg) initState).1.timestamps.zip
      (runLoop true (msgs.map SourceEvent.msg) initState).1.sentiments =
      msgs.filterMap decodePoint := by
    rw [h2, h3]
    simp [initState, List.zip_map']
  have hchart := h4 rfl rfl
  refine ⟨⟨hzip, ?_⟩, ?_⟩
  · rw [hchart]; exact hzip
  · intro l₁ l₂ l₃ m₁ m₂ p₁ p₂ hm hd₁ hd₂
    rw [hzip, hm, List.filterMap_append, List.filterMap_append,
      List.filterMap_cons_some hd₁, List.filterMap_cons_some hd₂]
    have t1 : List.Sublist [p₁] (p₁ :: l₂.filterMap decodePoint) :=
      List.cons_sublist_cons.mpr (List.nil_sublist _)
    have t2 : List.Sublist [p₁]
        (l₁.filterMap decodePoint ++ p₁ :: l₂.filterMap decodePoint) :=
      t1.trans (List.sublist_append_right _ _)
    have t3 : List.Sublist [p₂] (p₂ :: l₃.filterMap decodePoint) :=
      List.cons_sublist_cons.mpr (List.nil_sublist _)
    exact t2.append t3

/-- Witness for C2 at Scenario D plus an interleaved bad payload: the two
valid messages' points appear in arrival order in the final store. -/
theorem c2_prefix_exact_and_ordered_witness :
    List.Sublist [(JValue.jstr "t1", JValue.jnum (1/2)),
        (JValue.jstr "t2", JValue.jnum (-3/10))]
      ((runLoop true ([some (JValue.jobj [("timestamp", JValue.jstr "t1"),
            ("sentiment", JValue.jnum (1/2))]), none,
          some (JValue.jobj [("timestamp", JValue.jstr "t2"),
            ("sentiment", JValue.jnum (-3/10))])].map SourceEvent.msg)
          initState).1.timestamps.zip
        ((runLoop true ([some (JValue.jobj [("timestamp", JValue.jstr "t1"),
            ("sentiment", JValue.jnum (1/2))]), none,
          some (JValue.jobj [("timestamp", JValue.jstr "t2"),
            ("sentiment", JValue.jnum (-3/10))])].map SourceEvent.msg)
          initState).1.sentiments)) :=
  (c2_prefix_exact_and_ordered _).2 [] [none] []
    (some (JValue.jobj [("timestamp", JValue.jstr "t1"),
      ("sentiment", JValue.jnum (1/2))]))
    (some (JValue.jobj [("timestamp", JValue.jstr "t2"),
      ("sentiment", JValue.jnum (-3/10))]))
    (JValue.jstr "t1", JValue.jnum (1/2))
    (JValue.jstr "t2", JValue.jnum (-3/10)) rfl rfl rfl

/-- Counterexample to C8: the code checks only truthiness of `timestamp`
and presence of `sentiment`, never their types — the payload
`{"timestamp":"t","sentiment":"oops"}`, whose sentiment is not a number,
is appended, and so is `{"timestamp":5,"sentiment":1}`, whose timestamp is
not a string, contradicting "never appended". -/
theorem c8_counterexample_type_deviation_appended :
    (process_message true (some (.jobj [("timestamp", JValue.jstr "t"),
      ("sentiment", JValue.jstr "oops")])) initState).sentiments =
      [JValue.jstr "oops"] ∧
    (process_message true (some (.jobj [("timestamp", JValue.jnum 5),
      ("sentiment", JValue.jnum 1)])) initState).timestamps =
      [JValue.jnum 5] :=
  ⟨rfl, rfl⟩

/-- Claim C8 as amended: a payload that fails to parse, is not a JSON
object, has a falsy timestamp or a missing/null sentiment is never
appended; but the declared field types are not enforced — any truthy
timestamp value and any present, non-null sentiment value, of whatever
JSON type, are appended as-is. -/
theorem c8_decode_checks_presence_not_type (renderOk : Bool)
    (parsed : Option JValue) (s : ConsumerState) :
    (decodePoint parsed = none →
      (process_message renderOk parsed s).timestamps = s.timestamps ∧
      (process_message renderOk parsed s).sentiments = s.sentiments) ∧
    (∀ (fields : List (String × JValue)) (tv sv : JValue),
      parsed = some (.jobj fields) →
      dictGet fields "timestamp" = some tv → truthy tv = true →
      dictGet fields "sentiment" = some sv →
      (process_message renderOk parsed s).timestamps = s.timestamps ++ [tv] ∧
      (process_message renderOk parsed s).sentiments = s.sentiments ++ [sv]) := by
  constructor
  · intro h
    obtain ⟨h1, h2, _, _⟩ := process_message_decode_none renderOk parsed s h
    exact ⟨h1, h2⟩
  · intro fields tv sv hp hts htr hsv
    subst hp
    have hdec : decodePoint (some (.jobj fields)) = some (tv, sv) := by
      simp [decodePoint, hts, hsv, htr]
    obtain ⟨h1, h2, _, _, _⟩ :=
      process_message_decode_some renderOk (some (.jobj fields)) s (tv, sv) hdec
    exact ⟨h1, h2⟩

/-- Witness for the amended C8: the string-typed sentiment `"oops"` is
appended as-is. -/
theorem c8_decode_checks_presence_not_type_witness :
    (process_message true (some (.jobj [("timestamp", JValue.jstr "t"),
      ("sentiment", JValue.jstr "oops")])) initState).sentiments =
      initState.sentiments ++ [JValue.jstr "oops"] :=
  ((c8_decode_checks_presence_not_type true
    (some (.jobj [("timestamp", JValue.jstr "t"),
      ("sentiment", JValue.jstr "oops")])) initState).2
    [("timestamp", JValue.jstr "t"), ("sentiment", JValue.jstr "oops")]
    (JValue.jstr "t") (JValue.jstr "oops") rfl rfl rfl rfl).2

/-- Counterexample to C5: with every render raising, two valid messages
are still both processed — the loop reaches the second message, the store
grows to two points, nothing is raised out of the iteration and nothing is
propagated to `main`'s caller; the render failures are merely logged.
This contradicts "the consumer loop terminates" and "surfaced to the
caller rather than being recovered within the current message's
processing". -/
theorem c5_counterexample_render_failure_not_fatal :
    (pymain false [SourceEvent.msg (some (.jobj [("timestamp", JValue.jstr "t1"),
        ("sentiment", JValue.jnum (1/2))])),
      SourceEvent.msg (some (.jobj [("timestamp", JValue.jstr "t2"),
        ("sentiment", JValue.jnum (-3/10))]))]).raised = none ∧
    (pymain false [SourceEvent.msg (some (.jobj [("timestamp", JValue.jstr "t1"),
        ("sentiment", JValue.jnum (1/2))])),
      SourceEvent.msg (some (.jobj [("timestamp", JValue.jstr "t2"),
        ("sentiment", JValue.jnum (-3/10))]))]).propagated = false ∧
    (pymain false [SourceEvent.msg (some (.jobj [("timestamp", JValue.jstr "t1"),
        ("sentiment", JValue.jnum (1/2))])),
      SourceEvent.msg (some (.jobj [("timestamp", JValue.jstr "t2"),
        ("sentiment", JValue.jnum (-3/10))]))]).state.timestamps =
      [JValue.jstr "t1", JValue.jstr "t2"] ∧
    (pymain false [SourceEvent.msg (some (.jobj [("timestamp", JValue.jstr "t1"),
        ("sentiment", JValue.jnum (1/2))])),
      SourceEvent.msg (some (.jobj [("timestamp", JValue.jstr "t2"),
        ("sentiment", JValue.jnum (-3/10))]))]).state.logs.count
      LogEvent.errorProcessing = 2 :=
  ⟨rfl, rfl, rfl, rfl⟩

/-- Claim C5 as amended: if the render step fails, the exception is caught
by `process_message`'s generic `except Exception` handler within the
current message's processing — it is logged as an error, the appended
point stays in the store, the chart is left untouched, nothing reaches the
loop, and the loop continues with the next message. -/
theorem c5_render_failure_recovered_locally (fields : List (String × JValue))
    (tv sv : JValue) (s : ConsumerState) (rest : List SourceEvent)
    (hts : dictGet fields "timestamp" = some tv) (htr : truthy tv = true)
    (hsv : dictGet fields "sentiment" = some sv) :
    (process_message false (some (.jobj fields)) s).timestamps =
      s.timestamps ++ [tv] ∧
    (process_message false (some (.jobj fields)) s).sentiments =
      s.sentiments ++ [sv] ∧
    (process_message false (some (.jobj fields)) s).renderCalls =
      s.renderCalls + 1 ∧
    (process_message false (some (.jobj fields)) s).chart = s.chart ∧
    (process_message false (some (.jobj fields)) s).logs =
      s.logs ++ [.debugRaw, .infoProcessed, .infoAppended, .errorProcessing] ∧
    runLoop false (SourceEvent.msg (some (.jobj fields)) :: rest) s =
      runLoop false rest (process_message false (some (.jobj fields))
        (logEv .debugReceived s)) := by
  refine ⟨?_, ?_, ?_, ?_, ?_, rfl⟩ <;>
    simp [process_message, hts, hsv, htr, logEv, update_chart]

/-- Witness for the amended C5: a failing render on a valid message logs
the per-message error and leaves the chart untouched. -/
theorem c5_render_failure_recovered_locally_witness :
    (process_message false (some (.jobj [("timestamp", JValue.jstr "t1"),
      ("sentiment", JValue.jnum (1/2))])) initState).chart = initState.chart :=
  (c5_render_failure_recovered_locally
    [("timestamp", JValue.jstr "t1"), ("sentiment", JValue.jnum (1/2))]
    (JValue.jstr "t1") (JValue.jnum (1/2)) initState [] rfl rfl rfl).2.2.2.1

/-- Claim C4: on every exit path of the consumer loop — normal completion,
external interrupt, or fatal error raised during iteration — the source
handle's `close` runs exactly once before `main` returns: the `finally`
block executes once whatever the event sequence. -/
theorem c4_close_called_exactly_once (renderOk : Bool)
    (events : List SourceEvent) :
    (pymain renderOk events).closeCalls = 1 := rfl

/-- The loop over a run of delivered messages followed by further events:
the messages are consumed first, then iteration continues on the rest. -/
theorem runLoop_msgs_append (renderOk : Bool) (msgs : List (Option JValue))
    (tail : List SourceEvent) :
    ∀ s : ConsumerState,
      runLoop renderOk (msgs.map SourceEvent.msg ++ tail) s =
        runLoop renderOk tail (runLoop renderOk (msgs.map SourceEvent.msg) s).1 := by
  induction msgs with
  | nil => intro s; rfl
  | cons m rest ih =>
    intro s
    simp only [List.map_cons, List.cons_append, runLoop]
    exact ih _

/-- Counterexample to C6: a fatal source error does terminate the loop,
but the `except Exception` clause of `main` swallows it — nothing is
propagated to `main`'s caller. -/
theorem c6_counterexample_not_propagated :
    (pymain true [SourceEvent.fatal]).raised = some PyExn.exception ∧
    (pymain true [SourceEvent.fatal]).propagated = false :=
  ⟨rfl, rfl⟩

/-- Claim C6 as amended: when the source iteration fails irrecoverably
after any run of messages, the loop terminates (events after the failure
are never consumed), the handle is still released exactly once and the
error is logged — but the exception is caught by `main` and is not
propagated to its caller; `main` returns normally. -/
theorem c6_source_fatal_released_logged_not_propagated (renderOk : Bool)
    (msgs : List (Option JValue)) (rest : List SourceEvent) :
    (pymain renderOk (msgs.map SourceEvent.msg ++ SourceEvent.fatal :: rest)).raised =
      some PyExn.exception ∧
    (pymain renderOk (msgs.map SourceEvent.msg ++
      SourceEvent.fatal :: rest)).closeCalls = 1 ∧
    (pymain renderOk (msgs.map SourceEvent.msg ++
      SourceEvent.fatal :: rest)).propagated = false ∧
    LogEvent.errorConsuming ∈ (pymain renderOk (msgs.map SourceEvent.msg ++
      SourceEvent.fatal :: rest)).state.logs ∧
    pymain renderOk (msgs.map SourceEvent.msg ++ SourceEvent.fatal :: rest) =
      pymain renderOk (msgs.map SourceEvent.msg ++ [SourceEvent.fatal]) := by
  have h1 : runLoop renderOk (msgs.map SourceEvent.msg ++ SourceEvent.fatal :: rest)
      initState =
      ((runLoop renderOk (msgs.map SourceEvent.msg) initState).1,
        some PyExn.exception) := by
    rw [runLoop_msgs_append]; rfl
  have h2 : runLoop renderOk (msgs.map SourceEvent.msg ++ [SourceEvent.fatal])
      initState =
      ((runLoop renderOk (msgs.map SourceEvent.msg) initState).1,
        some PyExn.exception) := by
    rw [runLoop_msgs_append]; rfl
  refine ⟨?_, ?_, ?_, ?_, ?_⟩ <;> simp [pymain, h1, h2, handleExn, logEv]
